import Mathlib

/-!
Verification of the `rype` OpenType font library against its specification.

Byte buffers are modelled as `List Nat` (one entry per byte), machine
integers as `Nat` (with explicit `% 2^w` where the code relies on wrapping)
and `Int` for signed reads.  Fallible Rust code returning `Result<T>` is
modelled as `Except Error T`.
-/

set_option maxRecDepth 100000

namespace Rype

/-- Error type as used across the crate.  `src/error.rs` declares the first
five variants; `src/glyf.rs` and `src/lib.rs` additionally construct an
`Unimplemented(String)` variant that the declaration in `src/error.rs`
omits (see `declared_error_variants`). -/
inductive Error where
  | ioErr : Error
  | invalid : Error
  | faceIndexOutOfBounds : Error
  | glyphIDOutOfBounds : Error
  | noCharmap : Error
  | unimplemented : String → Error
deriving DecidableEq, Repr

/-- The variant names exactly as declared by the `enum Error` in
`src/error.rs` (lines 9-20). -/
def declared_error_variants : List String :=
  ["Io", "Invalid", "FaceIndexOutOfBounds", "GlyphIDOutOfBounds", "NoCharmap"]

/-- rype's `Result` type (src/error.rs line 5). -/
abbrev Result (α : Type) := Except Error α

instance {ε α : Type} [DecidableEq ε] [DecidableEq α] : DecidableEq (Except ε α) := fun x y =>
  match x, y with
  | .ok a, .ok b =>
    if h : a = b then .isTrue (by rw [h])
    else .isFalse (by intro hh; cases hh; exact h rfl)
  | .error a, .error b =>
    if h : a = b then .isTrue (by rw [h])
    else .isFalse (by intro hh; cases hh; exact h rfl)
  | .ok _, .error _ => .isFalse (by intro h; cases h)
  | .error _, .ok _ => .isFalse (by intro h; cases h)

/-! ## Byte accessors (src/types.rs) -/

/-- `get_u8` (types.rs lines 8-14). -/
def get_u8 (data : List Nat) (off : Nat) : Result Nat :=
  if off + 1 > data.length then .error .invalid
  else .ok (data.getD off 0)

/-- `get_u16` (types.rs lines 17-23): big-endian, checked. -/
def get_u16 (data : List Nat) (off : Nat) : Result Nat :=
  if off + 2 > data.length then .error .invalid
  else .ok (data.getD off 0 * 256 + data.getD (off + 1) 0)

/-- Two's-complement reinterpretation of a 16-bit value as a signed integer;
this is the value `((b0 as i16) << 8) | (b1 as i16)` computes in Rust. -/
def toI16 (n : Nat) : Int :=
  if n % 65536 < 32768 then (n % 65536 : Int) else (n % 65536 : Int) - 65536

/-- `get_i16` (types.rs lines 26-32). -/
def get_i16 (data : List Nat) (off : Nat) : Result Int :=
  if off + 2 > data.length then .error .invalid
  else .ok (toI16 (data.getD off 0 * 256 + data.getD (off + 1) 0))

/-- `get_u32` (types.rs lines 35-44): big-endian, checked. -/
def get_u32 (data : List Nat) (off : Nat) : Result Nat :=
  if off + 4 > data.length then .error .invalid
  else .ok (data.getD off 0 * 16777216 + data.getD (off + 1) 0 * 65536 +
            data.getD (off + 2) 0 * 256 + data.getD (off + 3) 0)

/-- `get_u16_unchecked` (types.rs lines 47-49); only ever applied after an
enclosing bounds check, so out-of-range bytes are read as 0. -/
def get_u16_unchecked (data : List Nat) (off : Nat) : Nat :=
  data.getD off 0 * 256 + data.getD (off + 1) 0

/-- `get_i16_unchecked` (types.rs lines 52-54). -/
def get_i16_unchecked (data : List Nat) (off : Nat) : Int :=
  toI16 (get_u16_unchecked data off)

/-- `get_u32_unchecked` (types.rs lines 57-62). -/
def get_u32_unchecked (data : List Nat) (off : Nat) : Nat :=
  data.getD off 0 * 16777216 + data.getD (off + 1) 0 * 65536 +
  data.getD (off + 2) 0 * 256 + data.getD (off + 3) 0

/-! ## cmap (src/cmap.rs) -/

/-- A cmap encoding record (cmap.rs lines 9-13). -/
structure Subtable where
  platform_id : Nat
  encoding_id : Nat
  data : List Nat
deriving DecidableEq, Repr

/-- `Subtable::format` (cmap.rs lines 26-28). -/
def Subtable.format (s : Subtable) : Result Nat := get_u16 s.data 0

/-- Handle to the cmap table (cmap.rs lines 33-36). -/
structure Cmap where
  subtables : List Subtable
  active : Option Subtable
deriving DecidableEq, Repr

/-- The record loop of `Cmap::load` (cmap.rs lines 50-71), recursing on the
number of remaining encoding records. -/
def cmap_load_records (data : List Nat) :
    Nat → Nat → List Subtable → Option Subtable →
    Result (List Subtable × Option Subtable)
  | 0, _, subs, act => .ok (subs.reverse, act)
  | n + 1, enc_rec_off, subs, act =>
    let platform_id := get_u16_unchecked data enc_rec_off
    let encoding_id := get_u16_unchecked data (enc_rec_off + 2)
    let offset := get_u32_unchecked data (enc_rec_off + 4)
    if offset ≥ data.length then .error .invalid
    else
      let st : Subtable := ⟨platform_id, encoding_id, data.drop offset⟩
      let act' :=
        if platform_id = 3 then
          if encoding_id = 10 then some st
          else if act = none ∧ encoding_id = 1 then some st
          else act
        else act
      cmap_load_records data n (enc_rec_off + 8) (st :: subs) act'

/-- `Cmap::load` (cmap.rs lines 39-76). -/
def Cmap.load (data : List Nat) : Result Cmap :=
  if data.length < 4 then .error .invalid
  else
    let num_tables := get_u16_unchecked data 2
    if data.length < 4 + num_tables * 8 then .error .invalid
    else
      match cmap_load_records data num_tables 4 [] none with
      | .error e => .error e
      | .ok (subs, act) => .ok ⟨subs, act⟩

/-- The format-4 segment loop of `Cmap::get_glyph_id` (cmap.rs lines
95-117).  The Rust loop steps `off` through `(0..segcnt_2).step_by(2)`;
the first argument counts the remaining iterations. -/
def format4_search (data : List Nat) (segcnt_2 c : Nat) :
    Nat → Nat → Result Nat
  | 0, _ => .ok 0
  | n + 1, off =>
    let e := get_u16_unchecked data (14 + off)
    if c > e then format4_search data segcnt_2 c n (off + 2)
    else
      let s := get_u16_unchecked data (16 + segcnt_2 + off)
      if c < s then .ok 0
      else
        let delta := get_u16_unchecked data (16 + segcnt_2 * 2 + off)
        let range := get_u16_unchecked data (16 + segcnt_2 * 3 + off)
        if range = 0 then .ok ((c + delta) % 65536)
        else
          let gloff := range + (c - s) * 2 + 16 + segcnt_2 * 3 + off
          match get_u16 data gloff with
          | .error err => .error err
          | .ok g => .ok ((g + delta) % 65536)

/-- The format-12 group loop of `Cmap::get_glyph_id` (cmap.rs lines
125-138), recursing on the number of remaining groups. -/
def format12_search (data : List Nat) (c : Nat) : Nat → Nat → Result Nat
  | 0, _ => .ok 0
  | n + 1, off =>
    let s := get_u32_unchecked data off
    if c < s then .ok 0
    else
      let e := get_u32_unchecked data (off + 4)
      if c > e then format12_search data c n (off + 12)
      else
        let g := get_u32_unchecked data (off + 8)
        .ok ((c - s + g) % 4294967296)

/-- `Cmap::get_glyph_id` (cmap.rs lines 87-147).  The returned `GlyphID`
payload is modelled as a `Nat`. -/
def Cmap.get_glyph_id (m : Cmap) (c : Nat) : Result Nat :=
  match m.active with
  | none => .error .noCharmap
  | some active =>
    match active.format with
    | .error _ => .error .invalid
    | .ok 4 =>
      match get_u16 active.data 6 with
      | .error e => .error e
      | .ok segcnt_2 =>
        if active.data.length < 16 + segcnt_2 * 4 then .error .invalid
        else format4_search active.data segcnt_2 c ((segcnt_2 + 1) / 2) 0
    | .ok 12 =>
      match get_u32 active.data 12 with
      | .error e => .error e
      | .ok num_groups =>
        if active.data.length < 16 + 12 * num_groups then .error .invalid
        else format12_search active.data c num_groups 16
    | .ok _ => .ok 0

/-! ## head (src/head.rs) -/

/-- `IdxToLocFmt` (head.rs lines 8-11). -/
inductive IdxToLocFmt where
  | off16 : IdxToLocFmt
  | off32 : IdxToLocFmt
deriving DecidableEq, Repr

/-- The head table view (head.rs line 13). -/
structure Head where
  data : List Nat
deriving DecidableEq, Repr

/-- `Head::load` (head.rs lines 30-36). -/
def Head.load (data : List Nat) : Result Head :=
  if data.length < 54 then .error .invalid else .ok ⟨data⟩

/-- `Head::idx_to_loc_fmt` (head.rs lines 62-68). -/
def Head.idx_to_loc_fmt (h : Head) : Result IdxToLocFmt :=
  if get_i16_unchecked h.data 50 = 0 then .ok .off16
  else if get_i16_unchecked h.data 50 = 1 then .ok .off32
  else .error .invalid

/-! ## hhea (src/hhea.rs) -/

/-- The hhea table view (hhea.rs line 7). -/
structure Hhea where
  data : List Nat
deriving DecidableEq, Repr

/-- `Hhea::load` (hhea.rs lines 20-26). -/
def Hhea.load (data : List Nat) : Result Hhea :=
  if data.length < 36 then .error .invalid else .ok ⟨data⟩

/-- `Hhea::num_of_h_metrics` (hhea.rs lines 36-38). -/
def Hhea.num_of_h_metrics (h : Hhea) : Nat :=
  get_u16_unchecked h.data 34

/-! ## maxp (src/maxp.rs) -/

/-- The maxp table view (maxp.rs line 7). -/
structure Maxp where
  data : List Nat
deriving DecidableEq, Repr

/-- `Maxp::load` (maxp.rs lines 18-24). -/
def Maxp.load (data : List Nat) : Result Maxp :=
  if data.length < 6 then .error .invalid else .ok ⟨data⟩

/-- `Maxp::num_glyphs` (maxp.rs lines 26-28). -/
def Maxp.num_glyphs (m : Maxp) : Nat :=
  get_u16_unchecked m.data 4

/-! ## hmtx (src/hmtx.rs) -/

/-- The hmtx table view (hmtx.rs lines 7-11). -/
structure Hmtx where
  num_glyphs : Nat
  num_of_h_metrics : Nat
  data : List Nat
deriving DecidableEq, Repr

/-- `Hmtx::load` (hmtx.rs lines 14-24). -/
def Hmtx.load (data : List Nat) (num_glyphs num_of_h_metrics : Nat) : Result Hmtx :=
  if data.length < num_of_h_metrics * 2 + num_glyphs * 2 ∨ num_of_h_metrics = 0 then
    .error .invalid
  else .ok ⟨num_glyphs, num_of_h_metrics, data⟩

/-- `Hmtx::get_metrics` (hmtx.rs lines 26-43). -/
def Hmtx.get_metrics (h : Hmtx) (glyph_id : Nat) : Result (Nat × Int) :=
  if glyph_id ≥ h.num_glyphs then .error .glyphIDOutOfBounds
  else
    let glyph_off := glyph_id * 2
    if glyph_id < h.num_of_h_metrics then
      .ok (get_u16_unchecked h.data glyph_off, get_i16_unchecked h.data (glyph_off + 2))
    else
      .ok (get_u16_unchecked h.data ((h.num_of_h_metrics - 1) * 2),
           get_i16_unchecked h.data (glyph_off + 2))

/-! ## loca (src/loca.rs) -/

/-- The loca table view (loca.rs lines 8-12). -/
structure Loca where
  num_glyphs : Nat
  idx_to_loc_fmt : IdxToLocFmt
  data : List Nat
deriving DecidableEq, Repr

/-- `Loca::load` (loca.rs lines 25-43). -/
def Loca.load (data : List Nat) (num_glyphs : Nat) (fmt : IdxToLocFmt) : Result Loca :=
  match fmt with
  | .off16 =>
    if data.length < num_glyphs * 2 then .error .invalid
    else .ok ⟨num_glyphs, .off16, data⟩
  | .off32 =>
    if data.length < num_glyphs * 4 then .error .invalid
    else .ok ⟨num_glyphs, .off32, data⟩

/-- `Loca::get_offset` (loca.rs lines 46-54). -/
def Loca.get_offset (l : Loca) (id : Nat) : Result Nat :=
  if id ≥ l.num_glyphs then .error .glyphIDOutOfBounds
  else
    match l.idx_to_loc_fmt with
    | .off16 => .ok (get_u16_unchecked l.data (id * 2) * 2)
    | .off32 => .ok (get_u32_unchecked l.data (id * 4))

/-! ## glyf (src/glyf.rs) -/

/-- `SimpleGlyph` (glyf.rs lines 213-220). -/
structure SimpleGlyph where
  num_contours : Nat
  xmin : Int
  ymin : Int
  xmax : Int
  ymax : Int
  data : List Nat
deriving DecidableEq, Repr

/-- `TTGlyph` (glyf.rs lines 42-45). -/
inductive TTGlyph where
  | simple : SimpleGlyph → TTGlyph
  | composite : List Nat → TTGlyph
deriving DecidableEq, Repr

/-- `Glyf::glyph` (glyf.rs lines 18-39).  The `Glyf` newtype is its byte
slice.  `num_contours as u16` on a non-negative `i16` is its `toNat`. -/
def Glyf.glyph (g : List Nat) (offset : Nat) : Result TTGlyph :=
  if offset + 10 > g.length then .error .invalid
  else
    let num_contours := get_i16_unchecked g offset
    let xmin := get_i16_unchecked g (offset + 2)
    let ymin := get_i16_unchecked g (offset + 4)
    let xmax := get_i16_unchecked g (offset + 6)
    let ymax := get_i16_unchecked g (offset + 8)
    if num_contours < 0 then .ok (.composite (g.drop offset))
    else .ok (.simple ⟨num_contours.toNat, xmin, ymin, xmax, ymax, g.drop (offset + 10)⟩)

/-- Outcome of `TTGlyph::render` (glyf.rs lines 224-278).  The `Simple`
branch performs floating-point rasterization, which is outside this
embedding; only the branch taken is recorded.  The `Composite` branch
(glyf.rs lines 274-277) fails before any arithmetic. -/
inductive RenderOutcome where
  | rasterized : RenderOutcome
  | failed : Error → RenderOutcome
deriving DecidableEq, Repr

/-- The dispatch of `TTGlyph::render` (glyf.rs lines 224-278). -/
def TTGlyph.render : TTGlyph → RenderOutcome
  | .simple _ => .rasterized
  | .composite _ => .failed (.unimplemented "composite glyphs")

/-- The `match flag & 0x12` arms of `get_ttglyph_offsets` (glyf.rs lines
297-301): bytes contributed to the x-coordinate array by `rc` points
sharing the flag `flag`.  `flag & 0x12` extracts bits 1 and 4, written
with `%` and `/` so that the kernel can evaluate it. -/
def x_contribution (flag rc : Nat) : Nat :=
  let m := flag % 32 / 16 * 16 + flag % 4 / 2 * 2
  if m = 0 then rc * 2
  else if m = 2 ∨ m = 18 then rc
  else 0

/-- The loop of `get_ttglyph_offsets` (glyf.rs lines 288-303).  Arguments:
fuel, `points_remaining`, `flags_size`, `x_size`.  The `usize` subtraction
`points_remaining -= repeat_count` carries Rust's overflow check: `none`
models the arithmetic-underflow panic when a repeat count exceeds the
points still unaccounted for.  The fuel starts equal to `points_remaining`
and every iteration consumes at least one point, so the fuel-exhaustion
branch (fuel 0 with points still remaining) is unreachable from
`get_ttglyph_offsets`. -/
def ttglyph_offsets_loop (data : List Nat) (flags_off : Nat) :
    Nat → Nat → Nat → Nat → Option (Result (Nat × Nat))
  | _, 0, flags_size, x_size =>
    some (.ok (flags_off + flags_size, flags_off + flags_size + x_size))
  | 0, _ + 1, _, _ => none
  | fuel + 1, pr + 1, flags_size, x_size =>
    match get_u8 data (flags_off + flags_size) with
    | .error e => some (.error e)
    | .ok flag =>
      if flag % 16 / 8 = 1 then
        match get_u8 data (flags_off + flags_size + 1) with
        | .error e => some (.error e)
        | .ok rep =>
          let repeat_count := rep + 1
          if repeat_count > pr + 1 then none
          else ttglyph_offsets_loop data flags_off fuel (pr + 1 - repeat_count)
                 (flags_size + 2) (x_size + x_contribution flag repeat_count)
      else
        ttglyph_offsets_loop data flags_off fuel pr (flags_size + 1)
          (x_size + x_contribution flag 1)

/-- `get_ttglyph_offsets` (glyf.rs lines 281-307), with Rust debug-build
semantics for the `usize` subtraction: `none` is an underflow panic. -/
def get_ttglyph_offsets (data : List Nat) (points_remaining flags_off : Nat) :
    Option (Result (Nat × Nat)) :=
  ttglyph_offsets_loop data flags_off points_remaining points_remaining 0 0

/-! ## Face and FontCollection (src/lib.rs) -/

/-- `FaceTyp` (lib.rs lines 35-38): a face holds TrueType outlines
(`loca` + `glyf`) or CFF data. -/
inductive FaceTyp where
  | trueType : Loca → List Nat → FaceTyp
  | cff : FaceTyp
deriving DecidableEq, Repr

/-- `Face` (lib.rs lines 42-50).  The `HashMap<Tag, &[u8]>` is modelled as
the insertion-ordered association list built by the record loop;
`tables_lookup` reproduces the last-insert-wins lookup. -/
structure Face where
  tables : List (Nat × List Nat)
  head : Head
  hhea : Hhea
  maxp : Maxp
  hmtx : Hmtx
  cmap : Cmap
  typ : FaceTyp
deriving DecidableEq, Repr

/-- Lookup in the tag map: a `HashMap::insert` for an existing key
overwrites, so the last inserted binding for a tag wins. -/
def tables_lookup (tables : List (Nat × List Nat)) (tag : Nat) : Option (List Nat) :=
  tables.foldl (fun acc p => if p.1 = tag then some p.2 else acc) none

/-- `Option::ok_or(Error::Invalid)` as used throughout `Face::load`. -/
def required {α : Type} : Option α → Result α
  | none => .error .invalid
  | some x => .ok x

/-- The table-record loop of `Face::load` (lib.rs lines 101-111), recursing
on the number of remaining records and accumulating the insertion order. -/
def load_table_records (data : List Nat) :
    Nat → Nat → List (Nat × List Nat) → Result (List (Nat × List Nat))
  | 0, _, acc => .ok acc
  | n + 1, record_off, acc => do
    let tag ← get_u32 data record_off
    let table_off ← get_u32 data (record_off + 8)
    let table_len ← get_u32 data (record_off + 12)
    if table_off + table_len > data.length then .error .invalid
    else
      let slice := (data.drop table_off).take table_len
      load_table_records data n (record_off + 16) (acc ++ [(tag, slice)])

/-- `Tag::from_str` applied to the constant table names in `Face::load`,
precomputed: "head", "hhea", "maxp", "hmtx", "cmap", "loca", "glyf" as
big-endian u32 tags. -/
def headTag : Nat := 0x68656164
def hheaTag : Nat := 0x68686561
def maxpTag : Nat := 0x6D617870
def hmtxTag : Nat := 0x686D7478
def cmapTag : Nat := 0x636D6170
def locaTag : Nat := 0x6C6F6361
def glyfTag : Nat := 0x676C7966

/-- `Face::load` (lib.rs lines 96-165). -/
def Face.load (data : List Nat) (offset : Nat) : Result Face := do
  let sfnt_version ← get_u32 data offset
  let num_tables ← get_u16 data (offset + 4)
  let tables ← load_table_records data num_tables (offset + 12) []
  let head ← required (tables_lookup tables headTag) >>= Head.load
  let hhea ← required (tables_lookup tables hheaTag) >>= Hhea.load
  let maxp ← required (tables_lookup tables maxpTag) >>= Maxp.load
  let hmtx ← required (tables_lookup tables hmtxTag) >>=
    fun d => Hmtx.load d maxp.num_glyphs hhea.num_of_h_metrics
  let cmap ← required (tables_lookup tables cmapTag) >>= Cmap.load
  let num_glyphs := maxp.num_glyphs
  let idx_to_loc_fmt ← head.idx_to_loc_fmt
  let typ ←
    if sfnt_version = 0x00010000 then do
      let loca ← required (tables_lookup tables locaTag) >>=
        fun d => Loca.load d num_glyphs idx_to_loc_fmt
      let glyf ← required (tables_lookup tables glyfTag)
      pure (FaceTyp.trueType loca glyf)
    else if sfnt_version = 0x4F54544F then pure FaceTyp.cff
    else .error .invalid
  pure ⟨tables, head, hhea, maxp, hmtx, cmap, typ⟩

/-- `Face::get_glyph_id` (lib.rs lines 77-79). -/
def Face.get_glyph_id (f : Face) (codepoint : Nat) : Result Nat :=
  f.cmap.get_glyph_id codepoint

/-- `Face::get_glyph` (lib.rs lines 82-92), returning the glyph outline
(the `Glyph` wrapper only holds the `TTGlyph`). -/
def Face.get_glyph (f : Face) (id : Nat) : Result TTGlyph :=
  match f.typ with
  | .trueType loca glyf => (loca.get_offset id).bind (fun off => Glyf.glyph glyf off)
  | .cff => .error (.unimplemented "CFF support")

/-- The offset loop of `FontCollection::from_data` (lib.rs lines 258-263):
reads `num_fonts` u32 face offsets starting at `off`, advancing `off` by
12 after each read. -/
def collect_face_offsets (data : List Nat) : Nat → Nat → Result (List Nat)
  | 0, _ => .ok []
  | n + 1, off => do
    let face_off ← get_u32 data off
    let rest ← collect_face_offsets data n (off + 12)
    pure (face_off :: rest)

/-- `FontCollection::from_data` (lib.rs lines 252-272), returning the face
offsets the collection would hold.  `Tag::from_str("ttcf")` is
`0x74746366`. -/
def FontCollection.from_data (data : List Nat) : Result (List Nat) := do
  let tag ← get_u32 data 0
  if tag = 0x74746366 then
    let num_fonts ← get_u32 data 8
    collect_face_offsets data num_fonts 12
  else pure [0]

/-! ## Tag (src/types.rs lines 63-87)

Rust strings are UTF-8; `str::as_bytes` of a `List Char` is the
concatenation of each scalar value's UTF-8 encoding. -/

/-- UTF-8 encoding of one Unicode scalar value, as `str::as_bytes`
produces it. -/
def utf8_bytes (c : Char) : List Nat :=
  let n := c.toNat
  if n < 0x80 then [n]
  else if n < 0x800 then [0xC0 + n / 64, 0x80 + n % 64]
  else if n < 0x10000 then [0xE0 + n / 4096, 0x80 + n / 64 % 64, 0x80 + n % 64]
  else [0xF0 + n / 262144, 0x80 + n / 4096 % 64, 0x80 + n / 64 % 64, 0x80 + n % 64]

/-- `Tag::from_str` (types.rs lines 69-71): `get_u32(s.as_bytes(), 0)` then
`unwrap()`; `none` models the `unwrap` panic on a string shorter than four
bytes. -/
def Tag.from_str (s : List Char) : Option Nat :=
  match get_u32 ((s.map utf8_bytes).flatten) 0 with
  | .ok n => some n
  | .error _ => none

/-- The `Display` impl for `Tag` (types.rs lines 74-82): each of the four
big-endian bytes is cast `as u8 as char`. -/
def Tag.display (t : Nat) : List Char :=
  [Char.ofNat (t / 16777216 % 256), Char.ofNat (t / 65536 % 256),
   Char.ofNat (t / 256 % 256), Char.ofNat (t % 256)]

/-- The four bytes of a `Tag` as `Display` extracts them (types.rs lines
76-79). -/
def Tag.bytes (t : Nat) : List Nat :=
  [t / 16777216 % 256, t / 65536 % 256, t / 256 % 256, t % 256]

/-- `get_tag` (types.rs lines 85-87), reading a tag back from bytes. -/
def get_tag (data : List Nat) (off : Nat) : Result Nat :=
  get_u32 data off

/-! ## Definitions following the specification text

These follow the spec's words (spec.md) rather than the source, to be
compared with the definitions above. -/

/-- Modelled from the spec (§4.4, Format 4): the per-segment search,
including the `g == 0` test the spec prescribes: "read u16 `g`; if
`g == 0` return `GlyphID(0)` else return `GlyphID((g + idDelta) mod
2^16)`". -/
def spec_format4_segments (data : List Nat) (segCountX2 c : Nat) :
    Nat → Nat → Result Nat
  | 0, _ => .ok 0
  | n + 1, off =>
    if c > get_u16_unchecked data (14 + off) then
      spec_format4_segments data segCountX2 c n (off + 2)
    else if c < get_u16_unchecked data (16 + segCountX2 + off) then .ok 0
    else
      let idDelta := get_u16_unchecked data (16 + segCountX2 * 2 + off)
      let idRangeOffset := get_u16_unchecked data (16 + segCountX2 * 3 + off)
      if idRangeOffset = 0 then .ok ((c + idDelta) % 65536)
      else
        let startCode := get_u16_unchecked data (16 + segCountX2 + off)
        match get_u16 data (idRangeOffset + (c - startCode) * 2 +
                           (16 + segCountX2 * 3 + off)) with
        | .error e => .error e
        | .ok g => if g = 0 then .ok 0 else .ok ((g + idDelta) % 65536)

/-- Modelled from the spec (§4.4, Format 4): `segCountX2` at +6, validate
body length ≥ 16 + 4·segCountX2, then run the segment search. -/
def spec_format4_lookup (data : List Nat) (c : Nat) : Result Nat :=
  match get_u16 data 6 with
  | .error e => .error e
  | .ok segCountX2 =>
    if data.length < 16 + segCountX2 * 4 then .error .invalid
    else spec_format4_segments data segCountX2 c ((segCountX2 + 1) / 2) 0

/-- The format-12 groups `(startCharCode, endCharCode, startGlyphId)` read
from offset `off` with stride 12. -/
def groups_of (data : List Nat) : Nat → Nat → List (Nat × Nat × Nat)
  | 0, _ => []
  | n + 1, off =>
    (get_u32_unchecked data off, get_u32_unchecked data (off + 4),
     get_u32_unchecked data (off + 8)) :: groups_of data n (off + 12)

/-- Modelled from the spec (§4.4, Format 12): "Walk groups in order ...
If `codepoint < startCharCode` break → `GlyphID(0)`.  If `codepoint >
endCharCode` continue.  Else return `GlyphID(codepoint − startCharCode +
startGlyphId)`", the id living in 32-bit space. -/
def spec_group_walk (c : Nat) : List (Nat × Nat × Nat) → Nat
  | [] => 0
  | (s, e, g) :: rest =>
    if c < s then 0
    else if c > e then spec_group_walk c rest
    else (c - s + g) % 4294967296

/-- Modelled from the spec (§3, hmtx view): long records are 4 bytes
(advance u16, bearing i16); for ids in `[0, num_of_h_metrics)` both
fields come from the id-th long record; for ids in
`[num_of_h_metrics, num_glyphs)` the advance replicates that of
`num_of_h_metrics − 1` and the bearing comes from the trailing
short-metric array (which in this layout starts at byte
`4·num_of_h_metrics` and is indexed by `id − num_of_h_metrics`). -/
def spec_hmtx_get_metrics (num_glyphs num_of_h_metrics : Nat)
    (data : List Nat) (id : Nat) : Result (Nat × Int) :=
  if id ≥ num_glyphs then .error .glyphIDOutOfBounds
  else if id < num_of_h_metrics then
    .ok (get_u16_unchecked data (id * 4), get_i16_unchecked data (id * 4 + 2))
  else
    .ok (get_u16_unchecked data ((num_of_h_metrics - 1) * 4),
         get_i16_unchecked data (num_of_h_metrics * 4 + (id - num_of_h_metrics) * 2))

/-- Modelled from the spec (§4.2): "an array of u32 face offsets starting
at offset 12, stride 4". -/
def spec_collect_offsets_stride4 (data : List Nat) : Nat → Nat → Result (List Nat)
  | 0, _ => .ok []
  | n + 1, off => do
    let face_off ← get_u32 data off
    let rest ← spec_collect_offsets_stride4 data n (off + 4)
    pure (face_off :: rest)

/-- Modelled from the spec (§4.2): ttc detection by the `ttcf` tag, u32
`num_fonts` at offset 8, then the stride-4 offset array; otherwise a
single face at offset 0. -/
def spec_face_offsets_stride4 (data : List Nat) : Result (List Nat) := do
  let tag ← get_u32 data 0
  if tag = 0x74746366 then
    let num_fonts ← get_u32 data 8
    spec_collect_offsets_stride4 data num_fonts 12
  else pure [0]

/-- The default active subtable the spec's preference policy (§4.4)
produces, as realized by the code: the last `(3, 10)` record if any,
otherwise the first `(3, 1)` record, otherwise none. -/
def preferred_active (subs : List Subtable) : Option Subtable :=
  ((subs.filter fun s => s.platform_id == 3 && s.encoding_id == 10).getLast?).or
    (subs.find? fun s => s.platform_id == 3 && s.encoding_id == 1)

/-- The side condition under which `get_ttglyph_offsets` performs no
underflowing subtraction: every flag byte that is read covers at most the
points still unaccounted for.  Mirrors the loop's fuel discipline;
reads that fail are harmless (they surface as `Invalid`, not as a
panic). -/
def flag_runs_fit_loop (data : List Nat) (flags_off : Nat) : Nat → Nat → Nat → Bool
  | _, 0, _ => true
  | 0, _ + 1, _ => false
  | fuel + 1, pr + 1, flags_size =>
    match get_u8 data (flags_off + flags_size) with
    | .error _ => true
    | .ok flag =>
      if flag % 16 / 8 = 1 then
        match get_u8 data (flags_off + flags_size + 1) with
        | .error _ => true
        | .ok rep =>
          decide (rep + 1 ≤ pr + 1) &&
            flag_runs_fit_loop data flags_off fuel (pr + 1 - (rep + 1)) (flags_size + 2)
      else flag_runs_fit_loop data flags_off fuel pr (flags_size + 1)

/-- Entry point for `flag_runs_fit_loop`, matching
`get_ttglyph_offsets`. -/
def flag_runs_fit (data : List Nat) (points_remaining flags_off : Nat) : Bool :=
  flag_runs_fit_loop data flags_off points_remaining points_remaining 0

/-! ## Concrete inputs -/

/-- A cmap table with one `(3, 1)` format-4 subtable whose single segment
is `[65, 65]` with `idDelta = 7`, `idRangeOffset = 2`, and whose glyph-id
array entry for 65 is `g = 0`. -/
def c1_cmap_bytes : List Nat :=
  [0, 0, 0, 1,
   0, 3, 0, 1, 0, 0, 0, 12,
   -- subtable, 26 bytes from offset 12:
   0, 4, 0, 26, 0, 0,
   0, 2,
   0, 0, 0, 0, 0, 0,
   0, 65,
   0, 0,
   0, 65,
   0, 7,
   0, 2,
   0, 0]

/-- A cmap table with one `(3, 10)` format-12 subtable holding the single
group `(100, 200, 1000)`. -/
def c8_sub_bytes : List Nat :=
  [0, 12, 0, 0,
   0, 0, 0, 28,
   0, 0, 0, 0,
   0, 0, 0, 1,
   0, 0, 0, 100, 0, 0, 0, 200, 0, 0, 3, 232]

def c8_subtable : Subtable := ⟨3, 10, c8_sub_bytes⟩

def c8_face : Face :=
  ⟨[], ⟨[]⟩, ⟨[]⟩, ⟨[]⟩, ⟨0, 0, []⟩, ⟨[c8_subtable], some c8_subtable⟩, .cff⟩

/-- A cmap table holding two `(3, 10)` records whose subtables differ:
the first points at offset 20 (`[9, 9, 1, 1]`), the second at offset 22
(`[1, 1]`). -/
def c5_cmap_bytes : List Nat :=
  [0, 0, 0, 2,
   0, 3, 0, 10, 0, 0, 0, 20,
   0, 3, 0, 10, 0, 0, 0, 22,
   9, 9, 1, 1]

def c5_cmap : Cmap := ((Cmap.load c5_cmap_bytes).toOption).getD ⟨[], none⟩

/-- A ttc buffer: tag `ttcf`, `num_fonts = 2`, and u32 values 100, 200, 0,
300 at offsets 12, 16, 20, 24. -/
def c4_ttc_bytes : List Nat :=
  [0x74, 0x74, 0x63, 0x66,
   0, 1, 0, 0,
   0, 0, 0, 2,
   0, 0, 0, 100,
   0, 0, 0, 200,
   0, 0, 0, 0,
   0, 0, 1, 44]

/-- A complete 228-byte CFF-flavoured font: `OTTO` sfnt version, tables
`head` (54 zero bytes at 92), `hhea` (36 bytes at 146, `num_of_h_metrics
= 1` at +34), `maxp` (6 bytes at 182, `num_glyphs = 1`), `hmtx` (4 zero
bytes at 188) and `cmap` (36 bytes at 192: one `(3, 1)` format-4 subtable
whose single segment maps codepoint 65 to glyph id 5 via `idDelta =
65476`). -/
def c3_font_bytes : List Nat :=
  -- offset table
  [0x4F, 0x54, 0x54, 0x4F, 0, 5, 0, 0, 0, 0, 0, 0,
   -- table records (tag, checksum, offset, length)
   0x68, 0x65, 0x61, 0x64, 0, 0, 0, 0, 0, 0, 0, 92, 0, 0, 0, 54,
   0x68, 0x68, 0x65, 0x61, 0, 0, 0, 0, 0, 0, 0, 146, 0, 0, 0, 36,
   0x6D, 0x61, 0x78, 0x70, 0, 0, 0, 0, 0, 0, 0, 182, 0, 0, 0, 6,
   0x68, 0x6D, 0x74, 0x78, 0, 0, 0, 0, 0, 0, 0, 188, 0, 0, 0, 4,
   0x63, 0x6D, 0x61, 0x70, 0, 0, 0, 0, 0, 0, 0, 192, 0, 0, 0, 36,
   -- head (54 bytes)
   0, 0, 0, 0, 0, 0, 0, 0, 0, 0, 0, 0, 0, 0, 0, 0, 0, 0,
   0, 0, 0, 0, 0, 0, 0, 0, 0, 0, 0, 0, 0, 0, 0, 0, 0, 0,
   0, 0, 0, 0, 0, 0, 0, 0, 0, 0, 0, 0, 0, 0, 0, 0, 0, 0,
   -- hhea (36 bytes, num_of_h_metrics = 1 at +34)
   0, 0, 0, 0, 0, 0, 0, 0, 0, 0, 0, 0, 0, 0, 0, 0, 0, 0,
   0, 0, 0, 0, 0, 0, 0, 0, 0, 0, 0, 0, 0, 0, 0, 0, 0, 1,
   -- maxp (6 bytes, num_glyphs = 1)
   0, 0, 0, 0, 0, 1,
   -- hmtx (4 bytes)
   0, 0, 0, 0,
   -- cmap (36 bytes)
   0, 0, 0, 1,
   0, 3, 0, 1, 0, 0, 0, 12,
   0, 4, 0, 24, 0, 0,
   0, 2,
   0, 0, 0, 0, 0, 0,
   0, 65,
   0, 0,
   0, 65,
   255, 196,
   0, 0]

def c3_face : Face :=
  ((Face.load c3_font_bytes 0).toOption).getD
    ⟨[], ⟨[]⟩, ⟨[]⟩, ⟨[]⟩, ⟨0, 0, []⟩, ⟨[], none⟩, .cff⟩

/-- The active subtable of `c3_face`: the `(3, 1)` record pointing into
the cmap slice at subtable offset 12. -/
def c3_active : Subtable :=
  ⟨3, 1, ((c3_font_bytes.drop 192).take 36).drop 12⟩

/-- A subtable whose leading format field reads as 6 (neither 4 nor
12). -/
def c6_subtable : Subtable := ⟨3, 1, [0, 6, 9, 9]⟩

def c6_cmap : Cmap := ⟨[c6_subtable], some c6_subtable⟩

example : get_u16 [1, 2, 3] 0 = .ok 258 := by decide
example : get_u16 [1, 2, 3] 2 = .error .invalid := by decide
example : toI16 65535 = -1 := by decide
example : (Cmap.load c1_cmap_bytes).map (fun m => m.get_glyph_id 65) = .ok (.ok 7) := by decide
example : spec_format4_lookup (c1_cmap_bytes.drop 12) 65 = .ok 0 := by decide
example : Face.load c3_font_bytes 0 = .ok c3_face := by decide
example : c3_face.maxp.num_glyphs = 1 ∧ c3_face.get_glyph_id 65 = .ok 5 := by decide
example : c3_face.cmap.active = some c3_active := by decide
example : c5_cmap.active = some ⟨3, 10, [1, 1]⟩ := by decide
example : FontCollection.from_data c4_ttc_bytes = .ok [100, 300] := by decide
example : spec_face_offsets_stride4 c4_ttc_bytes = .ok [100, 200] := by decide
example : get_ttglyph_offsets [8, 5] 1 0 = none := by decide
example : c8_face.get_glyph_id 150 = .ok 1050 := by decide

/-! ## Helper lemmas -/

lemma get_u8_error (d : List Nat) (o : Nat) (e : Error) (h : get_u8 d o = .error e) :
    e = .invalid := by
  unfold get_u8 at h
  split at h
  · exact (Except.error.inj h).symm
  · cases h

lemma get_u16_error (d : List Nat) (o : Nat) (e : Error) (h : get_u16 d o = .error e) :
    e = .invalid := by
  unfold get_u16 at h
  split at h
  · exact (Except.error.inj h).symm
  · cases h

lemma get_u32_error (d : List Nat) (o : Nat) (e : Error) (h : get_u32 d o = .error e) :
    e = .invalid := by
  unfold get_u32 at h
  split at h
  · exact (Except.error.inj h).symm
  · cases h

lemma format4_search_ne_noCharmap (data : List Nat) (s2 c : Nat) :
    ∀ n off, format4_search data s2 c n off ≠ .error .noCharmap := by
  intro n
  induction n with
  | zero => intro off h; cases h
  | succ n ih =>
    intro off
    simp only [format4_search]
    split
    · exact ih _
    · split
      · intro h; cases h
      · split
        · intro h; cases h
        · split
          · rename_i heq
            intro h
            rw [get_u16_error _ _ _ heq] at h
            exact Error.noConfusion (Except.error.inj h)
          · intro h; cases h

lemma format4_search_bound (data : List Nat) (s2 c : Nat) :
    ∀ n off g, format4_search data s2 c n off = .ok g → g < 65536 := by
  intro n
  induction n with
  | zero =>
    intro off g h
    simp only [format4_search] at h
    cases h
    exact Nat.zero_lt_succ _
  | succ n ih =>
    intro off g
    simp only [format4_search]
    split
    · exact ih _ _
    · split
      · intro h; cases h; exact Nat.zero_lt_succ _
      · split
        · intro h
          cases h
          exact Nat.mod_lt _ (by omega)
        · split
          · intro h; cases h
          · intro h
            cases h
            exact Nat.mod_lt _ (by omega)

lemma format12_search_eq_walk (data : List Nat) (c : Nat) :
    ∀ n off, format12_search data c n off =
      .ok (spec_group_walk c (groups_of data n off)) := by
  intro n
  induction n with
  | zero => intro off; rfl
  | succ n ih =>
    intro off
    simp only [format12_search, groups_of, spec_group_walk]
    split
    · rfl
    · split
      · exact ih _
      · rfl

lemma format12_search_bound (data : List Nat) (c : Nat) :
    ∀ n off g, format12_search data c n off = .ok g → g < 4294967296 := by
  intro n
  induction n with
  | zero =>
    intro off g h
    cases h
    exact Nat.zero_lt_succ _
  | succ n ih =>
    intro off g
    simp only [format12_search]
    split
    · intro h; cases h; exact Nat.zero_lt_succ _
    · split
      · exact ih _ _
      · intro h
        cases h
        exact Nat.mod_lt _ (by omega)

/-! ## Claim theorems -/

/-- C6: `get_glyph_id(c)` fails with `NoCharmap` exactly when the cmap has
no active subtable, and when the active subtable's leading u16 format
field reads successfully as a value other than 4 or 12 the lookup returns
`GlyphID(0)` rather than an error, for every codepoint. -/
theorem c6_nocharmap_iff (m : Cmap) (c : Nat) :
    (m.get_glyph_id c = .error .noCharmap ↔ m.active = none) ∧
    (∀ st f, m.active = some st → st.format = .ok f → f ≠ 4 → f ≠ 12 →
      m.get_glyph_id c = .ok 0) := by
  constructor
  · constructor
    · intro h
      unfold Cmap.get_glyph_id at h
      split at h
      · assumption
      · exfalso
        split at h
        · exact Error.noConfusion (Except.error.inj h)
        · split at h
          · rename_i heq2
            rw [get_u16_error _ _ _ heq2] at h
            exact Error.noConfusion (Except.error.inj h)
          · split at h
            · exact Error.noConfusion (Except.error.inj h)
            · exact format4_search_ne_noCharmap _ _ _ _ _ h
        · split at h
          · rename_i heq2
            rw [get_u32_error _ _ _ heq2] at h
            exact Error.noConfusion (Except.error.inj h)
          · split at h
            · exact Error.noConfusion (Except.error.inj h)
            · rw [format12_search_eq_walk] at h
              cases h
        · exact Except.noConfusion h
    · intro h
      unfold Cmap.get_glyph_id
      rw [h]
  · intro st f hact hfmt h4 h12
    unfold Cmap.get_glyph_id
    split
    · rename_i heq
      rw [hact] at heq
      cases heq
    · rename_i active heq
      rw [hact] at heq
      injection heq with heq'
      subst heq'
      split
      · rename_i heq2
        rw [hfmt] at heq2
        cases heq2
      · rename_i heq2
        rw [hfmt] at heq2
        exact absurd (Except.ok.inj heq2) h4
      · rename_i heq2
        rw [hfmt] at heq2
        exact absurd (Except.ok.inj heq2) h12
      · rfl

/-- C6 witness: a cmap with no active subtable fails `NoCharmap`, and one
whose active subtable has format 6 returns `GlyphID(0)`. -/
theorem c6_nocharmap_iff_witness :
    ((⟨[], none⟩ : Cmap).get_glyph_id 65 = .error .noCharmap) ∧
    (c6_cmap.get_glyph_id 65 = .ok 0) :=
  ⟨(c6_nocharmap_iff ⟨[], none⟩ 65).1.mpr rfl,
   (c6_nocharmap_iff c6_cmap 65).2 c6_subtable 6 rfl (by decide) (by decide) (by decide)⟩

/-- C3 counterexample: a successfully loaded face (`maxp.num_glyphs = 1`)
whose `get_glyph_id` succeeds with glyph id 5, which is neither below
`num_glyphs` nor `GlyphID(0)`: the lookup result is never validated
against `maxp.num_glyphs`. -/
theorem c3_counterexample :
    Face.load c3_font_bytes 0 = .ok c3_face ∧
    c3_face.maxp.num_glyphs = 1 ∧
    c3_face.get_glyph_id 65 = .ok 5 ∧
    ¬ (5 < 1) ∧ (5 : Nat) ≠ 0 := by
  refine ⟨by decide, by decide, by decide, by decide, by decide⟩

/-- C3 (amended): a successful `face.get_glyph_id(c)` result is not
checked against `maxp.num_glyphs`; what holds is that it is below 2^32
always, and below 2^16 whenever the active subtable's format is not
12. -/
theorem c3_glyph_id_range (f : Face) (c g : Nat)
    (h : f.get_glyph_id c = .ok g) :
    g < 4294967296 ∧
    (∀ st, f.cmap.active = some st → st.format ≠ .ok 12 → g < 65536) := by
  unfold Face.get_glyph_id Cmap.get_glyph_id at h
  split at h
  · cases h
  · rename_i active heq
    split at h
    · cases h
    · split at h
      · cases h
      · split at h
        · cases h
        · have hb := format4_search_bound _ _ _ _ _ _ h
          exact ⟨by omega, fun st _ _ => hb⟩
    · split at h
      · cases h
      · split at h
        · cases h
        · rename_i hfmt12 _ _ _ _
          have hb := format12_search_bound _ _ _ _ _ h
          refine ⟨hb, fun st hst hne => ?_⟩
          rw [heq] at hst
          injection hst with hst'
          subst hst'
          exact absurd hfmt12 hne
    · cases h
      exact ⟨by omega, fun st _ _ => by omega⟩

/-- C3 witness: the loaded face's lookup result 5 is below 2^16 (its
active subtable has format 4). -/
theorem c3_glyph_id_range_witness :
    c3_face.get_glyph_id 65 = .ok 5 ∧ (5 : Nat) < 65536 :=
  ⟨by decide,
   (c3_glyph_id_range c3_face 65 5 (by decide)).2 c3_active (by decide) (by decide)⟩

/-- C8: with a format-12 active subtable, `get_glyph_id(c)` walks the
groups `(startCharCode, endCharCode, startGlyphId)` read from offset 16
with stride 12 exactly as the spec describes: break to `GlyphID(0)` on
`c < startCharCode`, skip on `c > endCharCode`, return
`GlyphID(c − startCharCode + startGlyphId)` inside a group, and
`GlyphID(0)` when the groups are exhausted. -/
theorem c8_format12_walk (f : Face) (st : Subtable) (c n : Nat)
    (hact : f.cmap.active = some st) (hfmt : st.format = .ok 12)
    (hn : get_u32 st.data 12 = .ok n)
    (hlen : ¬ st.data.length < 16 + 12 * n) :
    f.get_glyph_id c = .ok (spec_group_walk c (groups_of st.data n 16)) := by
  unfold Face.get_glyph_id Cmap.get_glyph_id
  split
  · rename_i heq
    rw [hact] at heq
    cases heq
  · rename_i active heq
    rw [hact] at heq
    injection heq with heq'
    subst heq'
    split
    · rename_i heq2
      rw [hfmt] at heq2
      cases heq2
    · rename_i heq2
      rw [hfmt] at heq2
      cases Except.ok.inj heq2
    · split
      · rename_i heq3
        rw [hn] at heq3
        cases heq3
      · rename_i num_groups heq3
        rw [hn] at heq3
        injection heq3 with heq3'
        subst heq3'
        rw [if_neg hlen]
        exact format12_search_eq_walk _ _ _ _
    · rename_i a hne4 hne12 heqf
      rw [hfmt] at heqf
      exact absurd (Except.ok.inj heqf).symm hne12

/-- C8 witness: on a concrete one-group subtable `(100, 200, 1000)` the
lookup of codepoint 150 returns glyph id `150 − 100 + 1000 = 1050`. -/
theorem c8_format12_walk_witness :
    c8_face.get_glyph_id 150 = .ok (spec_group_walk 150 (groups_of c8_subtable.data 1 16)) ∧
    spec_group_walk 150 (groups_of c8_subtable.data 1 16) = 1050 :=
  ⟨c8_format12_walk c8_face c8_subtable 150 1 rfl (by decide) (by decide) (by decide),
   by decide⟩

/-- C1: on a format-4 subtable whose glyph-id array entry is `g = 0`
(segment `[65, 65]`, `idDelta = 7`, `idRangeOffset = 2`), the code
returns `GlyphID((0 + idDelta) & 0xffff) = GlyphID(7)`: it omits the
`g == 0 → GlyphID(0)` test that the spec prescribes
(`spec_format4_lookup` returns 0 here). -/
theorem c1_format4_zero_glyph_divergence :
    (Cmap.load c1_cmap_bytes).map (fun m => m.get_glyph_id 65) = .ok (.ok 7) ∧
    spec_format4_lookup (c1_cmap_bytes.drop 12) 65 = .ok 0 ∧
    (7 : Nat) ≠ 0 := by
  refine ⟨by decide, by decide, by decide⟩

/-- C2: `Hmtx::get_metrics` indexes with a 2-byte stride
(`glyph_off = id·2`), not 4-byte long records.  On the table
`[0,1,0,2,0,3,0,4]` with `num_glyphs = num_of_h_metrics = 2`, glyph id 1
yields `(2, 3)` (bytes 2..6), while the id-th (1st) long record of the
spec's layout holds `(3, 4)` (bytes 4..8). -/
theorem c2_hmtx_stride_divergence :
    (Hmtx.load [0, 1, 0, 2, 0, 3, 0, 4] 2 2).map (fun h => h.get_metrics 1) =
      .ok (.ok (2, 3)) ∧
    spec_hmtx_get_metrics 2 2 [0, 1, 0, 2, 0, 3, 0, 4] 1 = .ok (3, 4) ∧
    ((2 : Nat), (3 : Int)) ≠ ((3 : Nat), (4 : Int)) := by
  refine ⟨by decide, by decide, by decide⟩

/-- C7: rendering a composite glyph fails with
`Unimplemented("composite glyphs")` and obtaining a glyph from a
CFF-variant face fails with `Unimplemented("CFF support")`, but the
`enum Error` declared in src/error.rs has no `Unimplemented` variant at
all (the variant is only constructed, never declared, so the crate's
error type contradicts its uses). -/
theorem c7_unimplemented_errors :
    (∀ body, (TTGlyph.composite body).render =
      .failed (.unimplemented "composite glyphs")) ∧
    (∀ (f : Face) (id : Nat), f.typ = .cff →
      f.get_glyph id = .error (.unimplemented "CFF support")) ∧
    "Unimplemented" ∉ declared_error_variants := by
  refine ⟨fun body => rfl, fun f id h => ?_, by decide⟩
  unfold Face.get_glyph
  rw [h]

/-- C7 witness: the loaded CFF face fails glyph access with
`Unimplemented("CFF support")`. -/
theorem c7_unimplemented_errors_witness :
    c3_face.typ = .cff ∧
    c3_face.get_glyph 0 = .error (.unimplemented "CFF support") :=
  ⟨by decide, c7_unimplemented_errors.2.1 c3_face 0 (by decide)⟩

lemma collect_face_offsets_spec (data : List Nat) :
    ∀ n off l, collect_face_offsets data n off = .ok l →
      l.length = n ∧ ∀ i, i < n → get_u32 data (off + 12 * i) = .ok (l.getD i 0) := by
  intro n
  induction n with
  | zero =>
    intro off l h
    cases h
    exact ⟨rfl, fun i hi => absurd hi (by omega)⟩
  | succ n ih =>
    intro off l h
    simp only [collect_face_offsets, bind, Except.bind] at h
    split at h
    · cases h
    · rename_i face_off hface
      split at h
      · cases h
      · rename_i rest hrest
        cases h
        obtain ⟨hlen, hall⟩ := ih (off + 12) rest hrest
        refine ⟨by simp [hlen], fun i hi => ?_⟩
        cases i with
        | zero => simpa using hface
        | succ j =>
          have := hall j (by omega)
          have harith : off + 12 + 12 * j = off + 12 * (j + 1) := by omega
          rw [harith] at this
          simpa using this

/-- C4 (amended): a `ttcf` collection reads `num_fonts` as the u32 at
offset 8 and the face offsets as u32 values starting at byte offset 12
with a stride of 12 bytes between consecutive entries; any other leading
tag yields exactly one face at offset 0. -/
theorem c4_ttc_offsets (data l : List Nat)
    (h : FontCollection.from_data data = .ok l) :
    (∀ t, get_u32 data 0 = .ok t → t ≠ 0x74746366 → l = [0]) ∧
    (get_u32 data 0 = .ok 0x74746366 →
      ∃ n, get_u32 data 8 = .ok n ∧ l.length = n ∧
        ∀ i, i < n → get_u32 data (12 + 12 * i) = .ok (l.getD i 0)) := by
  unfold FontCollection.from_data at h
  simp only [bind, Except.bind] at h
  split at h
  · cases h
  · rename_i tag htag
    constructor
    · intro t ht htne
      rw [htag] at ht
      injection ht with ht'
      subst ht'
      rw [if_neg htne] at h
      cases h
      rfl
    · intro httcf
      rw [htag] at httcf
      injection httcf with ht'
      subst ht'
      rw [if_pos rfl] at h
      split at h
      · cases h
      · rename_i n hn
        exact ⟨n, hn, collect_face_offsets_spec data n 12 l h⟩

/-- C4 witness: on the concrete ttc buffer the offsets are `[100, 300]`
and the second one is read at byte offset `12 + 12·1 = 24`. -/
theorem c4_ttc_offsets_witness :
    FontCollection.from_data c4_ttc_bytes = .ok [100, 300] ∧
    get_u32 c4_ttc_bytes (12 + 12 * 1) = .ok (([100, 300] : List Nat).getD 1 0) := by
  refine ⟨by decide, ?_⟩
  obtain ⟨n, hn, hlen, hall⟩ :=
    (c4_ttc_offsets c4_ttc_bytes [100, 300] (by decide)).2 (by decide)
  have hn2 : n = 2 := by
    have : get_u32 c4_ttc_bytes 8 = .ok 2 := by decide
    rw [this] at hn
    exact (Except.ok.inj hn).symm
  exact hall 1 (by omega)

/-- C4 counterexample: the claim's stride-4 reading would give offsets
`[100, 200]` on this buffer, but the code (stride 12) produces
`[100, 300]`. -/
theorem c4_stride_counterexample :
    FontCollection.from_data c4_ttc_bytes = .ok [100, 300] ∧
    spec_face_offsets_stride4 c4_ttc_bytes = .ok [100, 200] ∧
    ([100, 300] : List Nat) ≠ [100, 200] := by
  refine ⟨by decide, by decide, by decide⟩

lemma preferred_active_append (subs : List Subtable) (st : Subtable) :
    preferred_active (subs ++ [st]) =
      if st.platform_id = 3 then
        if st.encoding_id = 10 then some st
        else if preferred_active subs = none ∧ st.encoding_id = 1 then some st
        else preferred_active subs
      else preferred_active subs := by
  have hdef : preferred_active subs =
      ((subs.filter fun s => s.platform_id == 3 && s.encoding_id == 10).getLast?).or
        (subs.find? fun s => s.platform_id == 3 && s.encoding_id == 1) := rfl
  conv_lhs => rw [preferred_active]
  rw [List.filter_append, List.find?_append]
  by_cases hp : st.platform_id = 3
  · by_cases h10 : st.encoding_id = 10
    · have hf : List.filter (fun s => s.platform_id == 3 && s.encoding_id == 10) [st] = [st] := by
        have : (st.platform_id == 3 && st.encoding_id == 10) = true := by simp [hp, h10]
        simp [List.filter_cons_of_pos, this]
      rw [hf, List.getLast?_concat, if_pos hp, if_pos h10]
      rfl
    · have hmask : (st.platform_id == 3 && st.encoding_id == 10) = false := by simp [h10]
      have hf : List.filter (fun s => s.platform_id == 3 && s.encoding_id == 10) [st] = [] := by
        simp [List.filter_cons_of_neg, hmask]
      rw [hf, List.append_nil, if_pos hp, if_neg h10]
      by_cases h1 : st.encoding_id = 1
      · have hm1 : (st.platform_id == 3 && st.encoding_id == 1) = true := by simp [hp, h1]
        have hfind : List.find? (fun s => s.platform_id == 3 && s.encoding_id == 1) [st] = some st := by
          simp [List.find?, hm1]
        rw [hfind]
        rcases hL : (List.filter (fun s => s.platform_id == 3 && s.encoding_id == 10) subs).getLast? with _ | x
        · rcases hF : List.find? (fun s => s.platform_id == 3 && s.encoding_id == 1) subs with _ | y
          · have hPS : preferred_active subs = none := by rw [hdef, hL, hF]; rfl
            rw [hL, hF, if_pos ⟨hPS, h1⟩]
            rfl
          · have hPS : preferred_active subs = some y := by rw [hdef, hL, hF]; rfl
            rw [hL, hF, if_neg (fun hc => by rw [hPS] at hc; cases hc.1), hPS]
            rfl
        · have hPS : preferred_active subs = some x := by rw [hdef, hL]; rfl
          rw [hL, if_neg (fun hc => by rw [hPS] at hc; cases hc.1), hPS]
          rfl
      · have hm1 : (st.platform_id == 3 && st.encoding_id == 1) = false := by simp [h1]
        have hfind : List.find? (fun s => s.platform_id == 3 && s.encoding_id == 1) [st] = none := by
          simp [List.find?, hm1]
        rw [hfind, Option.or_none, if_neg (fun hc => h1 hc.2), ← hdef]
  · have hmask : (st.platform_id == 3 && st.encoding_id == 10) = false := by simp [hp]
    have hm1 : (st.platform_id == 3 && st.encoding_id == 1) = false := by simp [hp]
    have hf : List.filter (fun s => s.platform_id == 3 && s.encoding_id == 10) [st] = [] := by
      simp [List.filter_cons_of_neg, hmask]
    have hfind : List.find? (fun s => s.platform_id == 3 && s.encoding_id == 1) [st] = none := by
      simp [List.find?, hm1]
    rw [hf, hfind, List.append_nil, Option.or_none, if_neg hp, ← hdef]

lemma cmap_load_records_preferred (data : List Nat) :
    ∀ n off seen act, act = preferred_active seen.reverse →
      ∀ subs res, cmap_load_records data n off seen act = .ok (subs, res) →
        res = preferred_active subs := by
  intro n
  induction n with
  | zero =>
    intro off seen act hact subs res h
    simp only [cmap_load_records] at h
    injection h with h'
    cases h'
    exact hact
  | succ n ih =>
    intro off seen act hact subs res h
    simp only [cmap_load_records] at h
    split at h
    · cases h
    · refine ih (off + 8)
        (⟨get_u16_unchecked data off, get_u16_unchecked data (off + 2),
          data.drop (get_u32_unchecked data (off + 4))⟩ :: seen) _ ?_ subs res h
      rw [List.reverse_cons, preferred_active_append, ← hact]

/-- C5 (amended): after a successful `Cmap::load` the active subtable is
the last record with `platform_id = 3, encoding_id = 10` if any exists (a
later 3/10 record overwrites an earlier one); otherwise the first record
with `platform_id = 3, encoding_id = 1` if any exists; otherwise no
subtable is active. -/
theorem c5_active_selection (data : List Nat) (m : Cmap)
    (h : Cmap.load data = .ok m) :
    m.active = preferred_active m.subtables := by
  simp only [Cmap.load] at h
  split at h
  · cases h
  · split at h
    · cases h
    · split at h
      · cases h
      · rename_i subs act heq
        injection h with h'
        cases h'
        exact cmap_load_records_preferred data _ 4 [] none rfl subs act heq

/-- C5 witness: on the two-record table the theorem pins the active
subtable to `preferred_active` of the parsed records. -/
theorem c5_active_selection_witness :
    Cmap.load c5_cmap_bytes = .ok c5_cmap ∧
    c5_cmap.active = preferred_active c5_cmap.subtables :=
  ⟨by decide, c5_active_selection c5_cmap_bytes c5_cmap (by decide)⟩

/-- C5 counterexample: with two `(3, 10)` records the active subtable is
the second one (data `[1, 1]`), not the first (data `[9, 9, 1, 1]`): a
3/10 record does not lock in once seen. -/
theorem c5_first_310_counterexample :
    Cmap.load c5_cmap_bytes = .ok c5_cmap ∧
    c5_cmap.subtables =
      [⟨3, 10, [9, 9, 1, 1]⟩, ⟨3, 10, [1, 1]⟩] ∧
    c5_cmap.active = some ⟨3, 10, [1, 1]⟩ ∧
    some (⟨3, 10, [1, 1]⟩ : Subtable) ≠ some ⟨3, 10, [9, 9, 1, 1]⟩ := by
  refine ⟨by decide, by decide, by decide, by decide⟩

/-- C9 (amended): converting a Tag to its four bytes and back is the
identity for every 32-bit value, and `Tag::from_str` followed by `Display`
reproduces every 4-character ASCII string; for non-ASCII strings the
display works on UTF-8 bytes, not characters (see the counterexample). -/
theorem c9_tag_roundtrip :
    (∀ t : Nat, t < 4294967296 → get_tag (Tag.bytes t) 0 = .ok t) ∧
    (∀ c0 c1 c2 c3 : Char, c0.toNat < 128 → c1.toNat < 128 → c2.toNat < 128 →
      c3.toNat < 128 →
      (Tag.from_str [c0, c1, c2, c3]).map Tag.display = some [c0, c1, c2, c3]) := by
  constructor
  · intro t ht
    have hv : t / 16777216 % 256 * 16777216 + t / 65536 % 256 * 65536 +
        t / 256 % 256 * 256 + t % 256 = t := by omega
    calc get_tag (Tag.bytes t) 0
        = .ok (t / 16777216 % 256 * 16777216 + t / 65536 % 256 * 65536 +
               t / 256 % 256 * 256 + t % 256) := rfl
      _ = .ok t := by rw [hv]
  · intro c0 c1 c2 c3 h0 h1 h2 h3
    have e0 : utf8_bytes c0 = [c0.toNat] := by unfold utf8_bytes; rw [if_pos h0]
    have e1 : utf8_bytes c1 = [c1.toNat] := by unfold utf8_bytes; rw [if_pos h1]
    have e2 : utf8_bytes c2 = [c2.toNat] := by unfold utf8_bytes; rw [if_pos h2]
    have e3 : utf8_bytes c3 = [c3.toNat] := by unfold utf8_bytes; rw [if_pos h3]
    have hfs : Tag.from_str [c0, c1, c2, c3] =
        some (c0.toNat * 16777216 + c1.toNat * 65536 + c2.toNat * 256 + c3.toNat) := by
      have hflat : (([c0, c1, c2, c3].map utf8_bytes).flatten) =
          [c0.toNat, c1.toNat, c2.toNat, c3.toNat] := by
        simp [e0, e1, e2, e3]
      unfold Tag.from_str
      rw [hflat]
      rfl
    have d0 : (c0.toNat * 16777216 + c1.toNat * 65536 + c2.toNat * 256 + c3.toNat) /
        16777216 % 256 = c0.toNat := by omega
    have d1 : (c0.toNat * 16777216 + c1.toNat * 65536 + c2.toNat * 256 + c3.toNat) /
        65536 % 256 = c1.toNat := by omega
    have d2 : (c0.toNat * 16777216 + c1.toNat * 65536 + c2.toNat * 256 + c3.toNat) /
        256 % 256 = c2.toNat := by omega
    have d3 : (c0.toNat * 16777216 + c1.toNat * 65536 + c2.toNat * 256 + c3.toNat) %
        256 = c3.toNat := by omega
    rw [hfs]
    show some (Tag.display _) = _
    unfold Tag.display
    rw [d0, d1, d2, d3, Char.ofNat_toNat, Char.ofNat_toNat, Char.ofNat_toNat,
        Char.ofNat_toNat]

/-- C9 witness: the tag `head` round-trips both ways. -/
theorem c9_tag_roundtrip_witness :
    get_tag (Tag.bytes 0x68656164) 0 = .ok 0x68656164 ∧
    (Tag.from_str ['h', 'e', 'a', 'd']).map Tag.display = some ['h', 'e', 'a', 'd'] :=
  ⟨c9_tag_roundtrip.1 0x68656164 (by decide),
   c9_tag_roundtrip.2 'h' 'e' 'a' 'd' (by decide) (by decide) (by decide) (by decide)⟩

/-- C9 counterexample: the 4-character string of four U+00B5 characters
(UTF-8 `C2 B5` each) is read as its first four bytes and displays as four
different characters, so `Tag::from_str(s)` does not reproduce every
4-character `s`. -/
theorem c9_nonascii_counterexample :
    Tag.from_str [Char.ofNat 181, Char.ofNat 181, Char.ofNat 181, Char.ofNat 181] =
      some 0xC2B5C2B5 ∧
    Tag.display 0xC2B5C2B5 =
      [Char.ofNat 194, Char.ofNat 181, Char.ofNat 194, Char.ofNat 181] ∧
    [Char.ofNat 194, Char.ofNat 181, Char.ofNat 194, Char.ofNat 181] ≠
      [Char.ofNat 181, Char.ofNat 181, Char.ofNat 181, Char.ofNat 181] := by
  refine ⟨by decide, by decide, by decide⟩

lemma ttglyph_loop_isSome (data : List Nat) (off : Nat) :
    ∀ fuel pr fs xs, flag_runs_fit_loop data off fuel pr fs = true →
      (ttglyph_offsets_loop data off fuel pr fs xs).isSome = true := by
  intro fuel
  induction fuel with
  | zero =>
    intro pr fs xs h
    cases pr with
    | zero => rfl
    | succ p => cases h
  | succ fuel ih =>
    intro pr fs xs h
    cases pr with
    | zero => rfl
    | succ p =>
      simp only [ttglyph_offsets_loop]
      simp only [flag_runs_fit_loop] at h
      split
      · rfl
      · rename_i flag heq
        simp only [heq] at h
        split
        · rename_i hrep
          rw [if_pos hrep] at h
          split
          · rfl
          · rename_i rep heq2
            simp only [heq2] at h
            rw [Bool.and_eq_true, decide_eq_true_eq] at h
            rw [if_neg (by omega : ¬ rep + 1 > p + 1)]
            exact ih _ _ _ h.2
        · rename_i hrep
          rw [if_neg hrep] at h
          exact ih _ _ _ h

lemma ttglyph_loop_error_invalid (data : List Nat) (off : Nat) :
    ∀ fuel pr fs xs e,
      ttglyph_offsets_loop data off fuel pr fs xs = some (.error e) →
      e = .invalid := by
  intro fuel
  induction fuel with
  | zero =>
    intro pr fs xs e h
    cases pr with
    | zero => cases Option.some.inj h
    | succ p => cases h
  | succ fuel ih =>
    intro pr fs xs e h
    cases pr with
    | zero => cases Option.some.inj h
    | succ p =>
      simp only [ttglyph_offsets_loop] at h
      split at h
      · rename_i heq
        cases Option.some.inj h
        exact get_u8_error _ _ _ heq
      · split at h
        · split at h
          · rename_i heq2
            cases Option.some.inj h
            exact get_u8_error _ _ _ heq2
          · split at h
            · cases h
            · exact ih _ _ _ _ h
        · exact ih _ _ _ _ h

/-- C10 (amended): `get_ttglyph_offsets` terminates on every input; its
only error result is `Invalid`; and it never panics provided every flag
byte's repeat count is at most the points still unaccounted for
(`flag_runs_fit`).  When a repeat count exceeds them the `usize`
subtraction underflows, modelled as `none` (see the counterexample). -/
theorem c10_offsets_total (data : List Nat) (points_remaining flags_off : Nat)
    (h : flag_runs_fit data points_remaining flags_off = true) :
    (get_ttglyph_offsets data points_remaining flags_off).isSome = true ∧
    ∀ e, get_ttglyph_offsets data points_remaining flags_off = some (.error e) →
      e = .invalid :=
  ⟨ttglyph_loop_isSome data flags_off points_remaining points_remaining 0 0 h,
   fun e he => ttglyph_loop_error_invalid data flags_off points_remaining
     points_remaining 0 0 e he⟩

/-- C10 witness: a two-point flag stream of plain short-x flags sizes to
offsets `(2, 6)` without a panic. -/
theorem c10_offsets_total_witness :
    flag_runs_fit [0, 0] 2 0 = true ∧
    (get_ttglyph_offsets [0, 0] 2 0).isSome = true :=
  ⟨by decide, (c10_offsets_total [0, 0] 2 0 (by decide)).1⟩

/-- C10 counterexample: one point remaining but a flag byte `0x08` with
repeat byte 5 covers six points; `points_remaining -= repeat_count`
underflows below zero (a panic in a checked build), so the sizing pass
neither returns offsets nor `Invalid`. -/
theorem c10_underflow_counterexample :
    get_ttglyph_offsets [8, 5] 1 0 = none ∧
    (∀ x y, get_ttglyph_offsets [8, 5] 1 0 ≠ some (.ok (x, y))) ∧
    get_ttglyph_offsets [8, 5] 1 0 ≠ some (.error .invalid) := by
  have h : get_ttglyph_offsets [8, 5] 1 0 = none := by decide
  refine ⟨h, fun x y hc => ?_, fun hc => ?_⟩
  · rw [h] at hc; cases hc
  · rw [h] at hc; cases hc

end Rype
